import Mathlib

/-!
Shallow embedding of the `shocked` client (packages/client/src/createClient.js)
and of the demo chat API (packages/demo/src/chat/server/api.js).

Strings of the JavaScript source are embedded as lists of characters
(`Str := List Char`): `startsWith` becomes `List.isPrefixOf`, `substr(4)`
becomes `List.drop 4`, and string concatenation becomes list append.
The single-threaded event-driven runtime is embedded as a state machine:
each JS callback (socket open/close, timer fire, parser event) is a total
function on an explicit `ClientState`; the host event loop is the choice of
which transition to apply next.
-/

namespace Shocked

abbrev Str := List Char

/-- JS: `const RECONNECT_INTERVAL = 2500` (createClient.js line 5). -/
def RECONNECT_INTERVAL : Nat := 2500

/-- Error message thrown by `getHost` for an unrecognized scheme. -/
def invalidEndpointMsg (endpoint : Str) : Str :=
  "Invalid endpoint ".toList ++ endpoint ++
    ". It should start with one of http:, https:, ws: or wss:".toList

/-- JS `getHost` (createClient.js lines 9-22): rewrite `http`/`https`
schemes to `ws`/`wss`, pass `ws`/`wss` through, throw otherwise.
`endpoint.startsWith(p)` is `p.isPrefixOf endpoint`,
`'ws'.concat(endpoint.substr(4))` is `"ws" ++ endpoint.drop 4`. -/
def getHost (endpoint : Str) : Except Str Str :=
  if "https:".toList.isPrefixOf endpoint || "http:".toList.isPrefixOf endpoint then
    .ok ("ws".toList ++ endpoint.drop 4)
  else if "wss:".toList.isPrefixOf endpoint || "ws:".toList.isPrefixOf endpoint then
    .ok endpoint
  else
    .error (invalidEndpointMsg endpoint)

/-- WebSocket ready states (`CONNECTING`, `OPEN`, `CLOSING`, `CLOSED`). -/
inductive Ready where
  | connecting
  | opened
  | closing
  | closed
deriving DecidableEq, Repr

/-- A physical socket instance. `sid` is the creation generation that
identifies the JS socket object (minted by each `new WebSocket(...)`);
`surl` is `sock.url`; `ready` is `sock.readyState`. -/
structure Sock where
  sid : Nat
  surl : Str
  ready : Ready
deriving DecidableEq, Repr

/-- Notifications a tracker object receives (calls made on it by the
client's router and lifecycle broadcasts). -/
inductive TNote where
  | connect
  | disconnect
  | topen (trackerId : Str)
  | tclose (code : Nat) (message : Str)
  | taction (action : Str) (serial : Nat)
  | tapi (apiId : Nat) (status : Bool) (response : Str) (params : Str)
  | temit (event : Str) (data : Str)
deriving DecidableEq, Repr

/-- Modelled from the spec: a registered `TrackerClient` (the TrackerClient
module is not under src/). Per the spec's data model there is one Tracker
Identifier naming the logical channel; the registration carries the
identifier (matched as `tracker.trackerId` by `createTracker` and as
`tracker.group` by `findTracker`), the bound `store`/`params`, and `log`
records every notification routed to this tracker. -/
structure Tracker where
  trackerId : Str
  group : Str
  store : Str
  params : Str
  log : List TNote
deriving DecidableEq, Repr

/-- Lifecycle events emitted on the client's event emitter. -/
inductive LEvent where
  | connect
  | disconnect (code : Nat)
deriving DecidableEq, Repr

/-- Modelled from the spec: outbound frames (the `shocked-common` codec is
not under src/). The outbound protocol surface is one control intent, the
timestamp response `PKT_TRACKER_TIMESTAMP(trackerId, epochMillis)`; all
other outbound frames are opaque payloads. -/
inductive Frame where
  | timestamp (trackerId : Str) (millis : Nat)
  | payload (data : Str)
deriving DecidableEq, Repr

/-- The closure state of one `createClient(endpoint)` call.
`host` is the rewritten endpoint; `socket`/`url` are the mutable slot and
path variables; `timers` is the set of live `setTimeout` handles
(id, interval) with `reconnectTimerHandle` the stored handle;
`nextTimerId`/`nextGen` mint fresh timer and socket identities;
`trackers` is the registration array; `events` the lifecycle events
emitted so far; `sent` the frames written via `socket.send`;
`closeCalls` the socket ids on which `.close()` has been invoked. -/
structure ClientState where
  host : Str
  socket : Option Sock
  url : Option Str
  timers : List (Nat × Nat)
  reconnectTimerHandle : Option Nat
  nextTimerId : Nat
  nextGen : Nat
  trackers : List Tracker
  events : List LEvent
  sent : List Frame
  closeCalls : List Nat
deriving DecidableEq, Repr

/-- State right after `createClient` body runs: no socket, no url,
no timers, no trackers. -/
def initState (host : Str) : ClientState :=
  { host := host, socket := none, url := none, timers := [],
    reconnectTimerHandle := none, nextTimerId := 0, nextGen := 0,
    trackers := [], events := [], sent := [], closeCalls := [] }

/-- JS `setupReconnection(interval)` (lines 49-59): no-op when a handle is
pending, otherwise create a timeout and store its handle. -/
def setupReconnection (s : ClientState) (interval : Nat) : ClientState :=
  match s.reconnectTimerHandle with
  | some _ => s
  | none =>
    { s with timers := s.timers ++ [(s.nextTimerId, interval)],
             reconnectTimerHandle := some s.nextTimerId,
             nextTimerId := s.nextTimerId + 1 }

/-- JS `clearRetry()` (lines 61-66): clear the pending timeout, if any. -/
def clearRetry (s : ClientState) : ClientState :=
  match s.reconnectTimerHandle with
  | some h =>
    { s with timers := s.timers.filter (fun t => t.1 ≠ h),
             reconnectTimerHandle := none }
  | none => s

/-- JS `client.isConnected()` (line 189):
`socket && socket.readyState === WebSocket.OPEN`. -/
def isConnected (s : ClientState) : Bool :=
  match s.socket with
  | some sk => sk.ready == .opened
  | none => false

/-- JS `connection(remoteUrl)` (lines 68-130): `null` stays `null`,
otherwise construct a fresh socket (in the `connecting` ready state) whose
callbacks are the transitions `deliverOpen` / `deliverClose` below. -/
def connection (s : ClientState) (remoteUrl : Option Str) :
    ClientState × Option Sock :=
  match remoteUrl with
  | none => (s, none)
  | some u =>
    ({ s with nextGen := s.nextGen + 1 },
     some { sid := s.nextGen, surl := u, ready := .connecting })

/-- Record that `.close()` was invoked on the current socket, if any
(the JS `if (socket !== null) socket.close()` pattern). -/
def closeCurrent (s : ClientState) : ClientState :=
  match s.socket with
  | some sk => { s with closeCalls := s.closeCalls ++ [sk.sid] }
  | none => s

/-- JS `client.connect(path)` (lines 191-203): set `url`, return early when
already connected to the identical url, else close any existing socket and
open a new one. -/
def connect (s : ClientState) (path : Str) : ClientState × Bool :=
  let u := s.host ++ ['/'] ++ path
  let s1 := { s with url := some u }
  if isConnected s1 && (match s1.socket with
                        | some sk => sk.surl == u
                        | none => false) then
    (s1, true)
  else
    let s2 := closeCurrent s1
    let (s3, sk) := connection s2 (some u)
    ({ s3 with socket := sk }, true)

/-- JS `client.clearPath()` (lines 205-211): null the url; close and null
the socket if present. -/
def clearPath (s : ClientState) : ClientState :=
  let s1 := { s with url := none }
  match s1.socket with
  | some _ => { closeCurrent s1 with socket := none }
  | none => s1

/-- JS `client.reconnect()` (lines 213-227): fail when no url is set or the
socket is still connecting; else close the existing socket and open a new
one against the same url. -/
def reconnect (s : ClientState) : ClientState × Bool :=
  match s.url with
  | none => (s, false)
  | some u =>
    let stillConnecting : Bool :=
      match s.socket with
      | some sk => sk.ready == .connecting
      | none => false
    if stillConnecting then
      (s, false)
    else
      let s2 := closeCurrent s
      let (s3, sk) := connection s2 (some u)
      ({ s3 with socket := sk }, true)

/-- JS `client.close()` (lines 229-236): close the socket, null the slot,
clear the retry timer. -/
def close (s : ClientState) : ClientState :=
  clearRetry { closeCurrent s with socket := none }

/-- JS `client.send(data)` (lines 238-244): drop unless connected. -/
def clientSend (s : ClientState) (data : Frame) : ClientState :=
  if isConnected s then { s with sent := s.sent ++ [data] } else s

/-- Body of `sock.onopen` (lines 81-93): clear any retry, notify every
tracker `onConnect`, emit the `connect` lifecycle event. The handler does
not consult which socket fired. -/
def onopenHandler (s : ClientState) : ClientState :=
  let s1 := clearRetry s
  let s2 : ClientState := { s1 with
    trackers := s1.trackers.map
      (fun t => ({ t with log := t.log ++ [TNote.connect] } : Tracker)) }
  { s2 with events := s2.events ++ [LEvent.connect] }

/-- Body of `sock.onclose` (lines 95-122) for close code `code`: when the
code is not 1000/1005/4001 and the current slot is not an OPEN socket, arm
the reconnect timer; when the current slot is not an OPEN socket, notify
every tracker `onDisconnect` and emit `disconnect code`. -/
def oncloseHandler (s : ClientState) (code : Nat) : ClientState :=
  let notOpen : Bool :=
    match s.socket with
    | some sk => sk.ready != .opened
    | none => true
  let s1 :=
    if (code != 1000 && code != 1005 && code != 4001) && notOpen then
      setupReconnection s RECONNECT_INTERVAL
    else s
  if notOpen then
    let s2 : ClientState := { s1 with
      trackers := s1.trackers.map
        (fun t => ({ t with log := t.log ++ [TNote.disconnect] } : Tracker)) }
    { s2 with events := s2.events ++ [LEvent.disconnect code] }
  else s1

/-- The host delivers the `open` event of the socket with id `sockId`: the
socket's readyState becomes OPEN (visible in the slot when it is the
current socket) and then its unguarded `onopen` handler runs. -/
def deliverOpen (s : ClientState) (sockId : Nat) : ClientState :=
  let s1 :=
    match s.socket with
    | some sk =>
      if sk.sid = sockId then
        { s with socket := some ({ sk with ready := .opened } : Sock) }
      else s
    | none => s
  onopenHandler s1

/-- The host delivers the `close` event (code `code`) of the socket with id
`sockId`: the socket's readyState becomes CLOSED (visible in the slot when
it is the current socket) and then its `onclose` handler runs. -/
def deliverClose (s : ClientState) (sockId : Nat) (code : Nat) : ClientState :=
  let s1 :=
    match s.socket with
    | some sk =>
      if sk.sid = sockId then
        { s with socket := some ({ sk with ready := .closed } : Sock) }
      else s
    | none => s
  oncloseHandler s1 code

/-- The reconnect timeout fires (lines 54-58): the host consumes the
timeout, the callback nulls the handle and calls `client.reconnect()`. -/
def timerFire (s : ClientState) : ClientState :=
  match s.reconnectTimerHandle with
  | none => s
  | some h =>
    (reconnect { s with timers := s.timers.filter (fun t => t.1 ≠ h),
                        reconnectTimerHandle := none }).1

/-- The typed protocol events decoded by the parser (the six handlers the
client registers on `createParser()`). -/
inductive PEvent where
  | tOpen (trackerId : Str)
  | tClose (trackerId : Str) (code : Nat) (message : Str)
  | tAction (trackerId : Str) (action : Str) (serial : Nat)
  | tApiResponse (trackerId : Str) (apiId : Nat) (status : Bool)
      (response : Str) (params : Str)
  | tEmit (trackerId : Str) (event : Str) (data : Str)
  | tTimestamp (trackerId : Str)
deriving DecidableEq, Repr

/-- JS `findTracker(trackerId)` (lines 30-32):
`trackers.find(tracker => tracker.group === trackerId)`. -/
def findTracker (s : ClientState) (trackerId : Str) : Option Tracker :=
  s.trackers.find? (fun t => t.group == trackerId)

/-- Mutating the tracker object returned by `trackers.find`: the first
element whose `group` matches is replaced by `f` of it. -/
def updateFirst (ts : List Tracker) (g : Str) (f : Tracker → Tracker) :
    List Tracker :=
  match ts with
  | [] => []
  | t :: rest => if t.group == g then f t :: rest else t :: updateFirst rest g f

/-- Route a notification to the tracker `findTracker` returns, as each of
the `if (tracker) tracker.onX(...)` handler bodies does; drop it when no
tracker is registered. -/
def notifyTracker (s : ClientState) (trackerId : Str) (n : TNote) : ClientState :=
  match findTracker s trackerId with
  | none => s
  | some _ =>
    { s with trackers :=
        (updateFirst s.trackers trackerId
          (fun t => ({ t with log := t.log ++ [n] } : Tracker))) }

/-- The parser handlers (lines 132-170): one per protocol event tag.
`onTrackerTimestamp` does not look up a tracker; it calls
`client.send(PKT_TRACKER_TIMESTAMP(trackerId, Date.now()))` where `now`
is the wall-clock reading. -/
def handleEvent (s : ClientState) (e : PEvent) (now : Nat) : ClientState :=
  match e with
  | .tOpen tid => notifyTracker s tid (.topen tid)
  | .tClose tid code msg => notifyTracker s tid (.tclose code msg)
  | .tAction tid action serial => notifyTracker s tid (.taction action serial)
  | .tApiResponse tid apiId status response params =>
      notifyTracker s tid (.tapi apiId status response params)
  | .tEmit tid ev data => notifyTracker s tid (.temit ev data)
  | .tTimestamp tid => clientSend s (Frame.timestamp tid now)

/-- Error message thrown by `createTracker` on a duplicate id. -/
def duplicateTrackerMsg (trackerId : Str) : Str :=
  "A tracker for ".toList ++ trackerId ++
    " already exists on the client. There can only be one tracker for one trackerId.".toList

/-- JS `client.createTracker(trackerId, store, params)` (lines 246-262):
throw when a tracker with the same `trackerId` exists, else construct a
`TrackerClient` and push it. The constructed tracker's registration
(its `group` equal to the identifier) is modelled from the spec, since the
TrackerClient module is not under src/. -/
def createTracker (s : ClientState) (trackerId store params : Str) :
    Except Str ClientState :=
  if s.trackers.any (fun t => t.trackerId == trackerId) then
    .error (duplicateTrackerMsg trackerId)
  else
    .ok { s with trackers := s.trackers ++
      [{ trackerId := trackerId, group := trackerId, store := store,
         params := params, log := [] }] }

/-- JS `createClient(endpoint)` (lines 24-266): compute the host via
`getHost` (propagating its throw) and return the initial closure state. -/
def createClient (endpoint : Str) : Except Str ClientState :=
  (getHost endpoint).map initState

/-- One step of the client: any method call, socket callback, timer fire or
parser event the host event loop may run next. -/
inductive Step : ClientState → ClientState → Prop where
  | connect (s : ClientState) (path : Str) : Step s (Shocked.connect s path).1
  | reconnect (s : ClientState) : Step s (Shocked.reconnect s).1
  | close (s : ClientState) : Step s (Shocked.close s)
  | clearPath (s : ClientState) : Step s (Shocked.clearPath s)
  | send (s : ClientState) (f : Frame) : Step s (clientSend s f)
  | sockOpen (s : ClientState) (sockId : Nat) : Step s (deliverOpen s sockId)
  | sockClose (s : ClientState) (sockId code : Nat) :
      Step s (deliverClose s sockId code)
  | fire (s : ClientState) : Step s (timerFire s)
  | message (s : ClientState) (e : PEvent) (now : Nat) :
      Step s (handleEvent s e now)
  | mkTracker (s : ClientState) (tid store params : Str) (s' : ClientState) :
      createTracker s tid store params = .ok s' → Step s s'

/-- States reachable from a fresh client. -/
inductive Reachable (host : Str) : ClientState → Prop where
  | init : Reachable host (initState host)
  | step {s s' : ClientState} : Reachable host s → Step s s' → Reachable host s'

end Shocked

namespace ChatDemo

open Shocked (Str)

/-- A chat user (`session.get('user')` carries `{ id, name }`). -/
structure User where
  uid : Nat
  uname : Str
deriving DecidableEq, Repr

/-- Redux-style actions dispatched by the chat API. -/
inductive ChatAction where
  | addMember (u : User)
  | removeMember (uid : Nat)
  | members (room : Str) (ms : List User)
  | message (senderId : Nat) (msg : Str)
  | roomsList (names : List Str)
deriving DecidableEq, Repr

/-- The per-connection session object as the chat API uses it. -/
structure Session where
  user : User
  room : Option Str
  subscriptions : List Str
  closeListeners : Nat
deriving DecidableEq, Repr

/-- Server-side state touched by the chat API: the module-level `ROOMS`
table, the session, channel dispatches `(channel, action)` and dispatches
to the session itself. -/
structure ChatState where
  rooms : List (Str × List User)
  session : Session
  channelDispatches : List (Str × ChatAction)
  sessionDispatches : List ChatAction
deriving DecidableEq, Repr

/-- The initial `ROOMS` table (api.js lines 3-9). -/
def initialRooms : List (Str × List User) :=
  [("python".toList, []), ("java".toList, []), ("javascript".toList, []),
   ("ruby".toList, []), ("php".toList, [])]

/-- The property names every plain JS object literal inherits from
`Object.prototype`: a read `ROOMS[name]` at one of these yields the
inherited method or accessor — a truthy non-array value — even though the
name is not an own key of the table. -/
def objectProtoKeys : List Str :=
  ["constructor".toList, "hasOwnProperty".toList, "isPrototypeOf".toList,
   "propertyIsEnumerable".toList, "toLocaleString".toList,
   "toString".toList, "valueOf".toList, "__proto__".toList,
   "__defineGetter__".toList, "__defineSetter__".toList,
   "__lookupGetter__".toList, "__lookupSetter__".toList]

/-- The value a JS property read `ROOMS[room]` produces: the member array
at an own key, the inherited truthy `Object.prototype` member at an
inherited name, or `undefined` (the only falsy outcome). -/
inductive RoomsVal where
  | arr (ms : List User)
  | protoMember
  | undefined
deriving DecidableEq, Repr

/-- JS property lookup `ROOMS[room]`: own keys shadow the prototype;
absent names fall through to `Object.prototype` before `undefined`. -/
def roomsLookup (rooms : List (Str × List User)) (room : Str) : RoomsVal :=
  match rooms.find? (fun r => r.1 == room) with
  | some r => .arr r.2
  | none => if objectProtoKeys.contains room then .protoMember else .undefined

/-- The errors `join` can throw: the explicit `Unknown room` throw of
`getMembers`, or the TypeError JS raises at `ROOMS[room].push(user)` when
the looked-up value has no `push` (an inherited prototype member). -/
inductive JsError where
  | unknownRoom (msg : Str)
  | typeError
deriving DecidableEq, Repr

/-- JS `getMembers(room)` (api.js lines 12-18): `const members =
ROOMS[room]; if (!members) throw ...`. The truthiness test only rejects
`undefined`; an array (even empty) is truthy, and so is an inherited
`Object.prototype` member, which is returned as-is (`some` carries the
member array of an own key, `none` the truthy non-array value). -/
def getMembers (rooms : List (Str × List User)) (room : Str) :
    Except Str (Option (List User)) :=
  match roomsLookup rooms room with
  | .arr ms => .ok (some ms)
  | .protoMember => .ok none
  | .undefined => .error ("Unknown room ".toList ++ room)

/-- Replace the member list of `room` in the table. -/
def setRoom (rooms : List (Str × List User)) (room : Str) (ms : List User) :
    List (Str × List User) :=
  rooms.map (fun r => if r.1 == room then (r.1, ms) else r)

/-- JS `join(room)` (api.js lines 49-84), with the thrown error surfaced as
`Except.error` together with the state at the throw point. `getMembers`
runs before any dispatch, subscription, `ROOMS` mutation or session write —
but its truthiness validation passes for inherited `Object.prototype`
names, in which case join dispatches `ADD_MEMBER` (line 59) and subscribes
(line 65) and only then throws a TypeError at `ROOMS[room].push(user)`
(line 68). On success the MEMBERS payload contains the joining user,
because `members` aliases the array `ROOMS[room].push` mutated. -/
def join (st : ChatState) (room : Str) : ChatState × Except JsError Unit :=
  let user := st.session.user
  match getMembers st.rooms room with
  | .error e => (st, .error (.unknownRoom e))
  | .ok v =>
    let st1 : ChatState := { st with
      channelDispatches := st.channelDispatches ++ [(room, .addMember user)] }
    let st2 : ChatState := { st1 with
      session := { st1.session with
        subscriptions := st1.session.subscriptions ++ [room] } }
    match v with
    | none => (st2, .error .typeError)
    | some members =>
      let st3 : ChatState := { st2 with
        rooms := setRoom st2.rooms room (members ++ [user]) }
      let st4 : ChatState := { st3 with
        session := { st3.session with room := some room } }
      let st5 : ChatState := { st4 with
        session := { st4.session with
          closeListeners := st4.session.closeListeners + 1 } }
      let st6 : ChatState := { st5 with
        sessionDispatches := st5.sessionDispatches ++
          [.members room (members ++ [user])] }
      (st6, .ok ())

end ChatDemo

namespace Shocked

/-! ## Timer bookkeeping lemmas

The reconnect timer discipline: `timers` is the set of live timeouts; the
invariant ties it to the stored handle. -/

/-- The timer invariant: the live timeouts are exactly the one the stored
handle names (armed always with `RECONNECT_INTERVAL`). -/
def TimerInv (s : ClientState) : Prop :=
  s.timers = (match s.reconnectTimerHandle with
              | none => []
              | some h => [(h, RECONNECT_INTERVAL)])

theorem timerInv_of_eq {s t : ClientState} (h : TimerInv s)
    (ht : t.timers = s.timers)
    (hh : t.reconnectTimerHandle = s.reconnectTimerHandle) : TimerInv t := by
  unfold TimerInv at *
  rw [ht, hh]
  exact h

theorem timerInv_init (host : Str) : TimerInv (initState host) := by
  simp [TimerInv, initState]

theorem timerInv_setup (s : ClientState) (h : TimerInv s) :
    TimerInv (setupReconnection s RECONNECT_INTERVAL) := by
  unfold TimerInv setupReconnection at *
  cases hh : s.reconnectTimerHandle <;> simp [hh] at h ⊢ <;> simp [h]

theorem clearRetry_spec (s : ClientState) (h : TimerInv s) :
    (clearRetry s).timers = [] ∧ (clearRetry s).reconnectTimerHandle = none := by
  unfold TimerInv at h
  unfold clearRetry
  cases hh : s.reconnectTimerHandle <;> simp [hh] at h ⊢ <;> simp [h]

theorem connect_timers (s : ClientState) (path : Str) :
    (connect s path).1.timers = s.timers ∧
    (connect s path).1.reconnectTimerHandle = s.reconnectTimerHandle := by
  cases hsk : s.socket <;>
    simp [connect, closeCurrent, connection, hsk] <;> split <;> simp

theorem reconnect_timers (s : ClientState) :
    (reconnect s).1.timers = s.timers ∧
    (reconnect s).1.reconnectTimerHandle = s.reconnectTimerHandle := by
  cases hu : s.url <;> cases hsk : s.socket <;>
    simp [reconnect, closeCurrent, connection, hu, hsk] <;> split <;> simp

theorem clearPath_timers (s : ClientState) :
    (clearPath s).timers = s.timers ∧
    (clearPath s).reconnectTimerHandle = s.reconnectTimerHandle := by
  cases hsk : s.socket <;> simp [clearPath, closeCurrent, hsk]

theorem clientSend_timers (s : ClientState) (f : Frame) :
    (clientSend s f).timers = s.timers ∧
    (clientSend s f).reconnectTimerHandle = s.reconnectTimerHandle := by
  simp only [clientSend]
  split <;> simp

theorem notifyTracker_timers (s : ClientState) (tid : Str) (n : TNote) :
    (notifyTracker s tid n).timers = s.timers ∧
    (notifyTracker s tid n).reconnectTimerHandle = s.reconnectTimerHandle := by
  simp only [notifyTracker]
  split <;> simp

theorem handleEvent_timers (s : ClientState) (e : PEvent) (now : Nat) :
    (handleEvent s e now).timers = s.timers ∧
    (handleEvent s e now).reconnectTimerHandle = s.reconnectTimerHandle := by
  cases e <;> simp [handleEvent, notifyTracker_timers, clientSend_timers]

theorem closeCurrent_timers (s : ClientState) :
    (closeCurrent s).timers = s.timers ∧
    (closeCurrent s).reconnectTimerHandle = s.reconnectTimerHandle := by
  cases hsk : s.socket <;> simp [closeCurrent, hsk]

theorem onopen_spec (s : ClientState) (h : TimerInv s) :
    (onopenHandler s).timers = [] ∧
    (onopenHandler s).reconnectTimerHandle = none := by
  have hc := clearRetry_spec s h
  simp [onopenHandler, hc.1, hc.2]

theorem timerInv_onclose (s : ClientState) (code : Nat) (h : TimerInv s) :
    TimerInv (oncloseHandler s code) := by
  have hs := timerInv_setup s h
  unfold oncloseHandler
  split <;> dsimp only <;> split <;> (try split) <;>
    solve
      | exact h
      | exact hs

theorem timerFire_spec (s : ClientState) (h : TimerInv s) :
    (timerFire s).timers = [] ∧ (timerFire s).reconnectTimerHandle = none := by
  unfold TimerInv at h
  unfold timerFire
  cases hh : s.reconnectTimerHandle with
  | none =>
    simp only [hh] at h ⊢
    simp [h, hh]
  | some hd =>
    simp only [hh] at h ⊢
    constructor
    · rw [(reconnect_timers _).1]
      simp [h]
    · rw [(reconnect_timers _).2]

theorem close_spec (s : ClientState) (h : TimerInv s) :
    (close s).timers = [] ∧ (close s).reconnectTimerHandle = none := by
  unfold close
  have hc := closeCurrent_timers s
  exact clearRetry_spec _ (timerInv_of_eq h hc.1 hc.2)

theorem deliverOpen_spec (s : ClientState) (sockId : Nat) (h : TimerInv s) :
    (deliverOpen s sockId).timers = [] ∧
    (deliverOpen s sockId).reconnectTimerHandle = none := by
  unfold deliverOpen
  cases hsk : s.socket with
  | none => exact onopen_spec s h
  | some sk =>
    by_cases hid : sk.sid = sockId
    · simp only [hsk, hid]
      exact onopen_spec _ (timerInv_of_eq h (by simp) (by simp))
    · simp only [hsk, if_neg hid]
      exact onopen_spec s h

theorem timerInv_deliverClose (s : ClientState) (sockId code : Nat)
    (h : TimerInv s) : TimerInv (deliverClose s sockId code) := by
  unfold deliverClose
  cases hsk : s.socket with
  | none => exact timerInv_onclose s code h
  | some sk =>
    by_cases hid : sk.sid = sockId
    · simp only [hsk, hid]
      exact timerInv_onclose _ code (timerInv_of_eq h (by simp) (by simp))
    · simp only [hsk, if_neg hid]
      exact timerInv_onclose s code h

theorem createTracker_ok_fields {s s' : ClientState} {tid store params : Str}
    (h : createTracker s tid store params = .ok s') :
    s'.timers = s.timers ∧ s'.reconnectTimerHandle = s.reconnectTimerHandle := by
  unfold createTracker at h
  split at h
  · exact absurd h (by simp)
  · cases h
    simp

/-- The timer invariant is preserved by every step the event loop can
take. -/
theorem timerInv_step {s s' : ClientState} (st : Step s s') (h : TimerInv s) :
    TimerInv s' := by
  cases st with
  | connect path =>
    exact timerInv_of_eq h (connect_timers s path).1 (connect_timers s path).2
  | reconnect =>
    exact timerInv_of_eq h (reconnect_timers s).1 (reconnect_timers s).2
  | close =>
    have hc := close_spec s h
    unfold TimerInv
    simp [hc.1, hc.2]
  | clearPath =>
    exact timerInv_of_eq h (clearPath_timers s).1 (clearPath_timers s).2
  | send f =>
    exact timerInv_of_eq h (clientSend_timers s f).1 (clientSend_timers s f).2
  | sockOpen sockId =>
    have ho := deliverOpen_spec s sockId h
    unfold TimerInv
    simp [ho.1, ho.2]
  | sockClose sockId code => exact timerInv_deliverClose s sockId code h
  | fire =>
    have hf := timerFire_spec s h
    unfold TimerInv
    simp [hf.1, hf.2]
  | message e now =>
    exact timerInv_of_eq h (handleEvent_timers s e now).1 (handleEvent_timers s e now).2
  | mkTracker tid store params s2 hok =>
    have hc := createTracker_ok_fields hok
    exact timerInv_of_eq h hc.1 hc.2

theorem timerInv_reachable {host : Str} {s : ClientState}
    (r : Reachable host s) : TimerInv s := by
  induction r with
  | init => exact timerInv_init host
  | step _ st ih => exact timerInv_step st ih

theorem timerInv_length {s : ClientState} (h : TimerInv s) :
    s.timers.length ≤ 1 := by
  unfold TimerInv at h
  cases hh : s.reconnectTimerHandle <;> rw [hh] at h <;> simp [h]

/-- On a terminal close code the `onclose` handler touches neither the
timer set nor the handle. -/
theorem onclose_terminal (s : ClientState) (code : Nat)
    (hterm : code = 1000 ∨ code = 1005 ∨ code = 4001) :
    (oncloseHandler s code).reconnectTimerHandle = s.reconnectTimerHandle ∧
    (oncloseHandler s code).timers = s.timers := by
  unfold oncloseHandler
  rcases hterm with h | h | h <;> subst h <;> dsimp only <;>
    split <;> simp_all <;> split <;> simp

/-- On a non-terminal close code, with the current slot not OPEN, the
`onclose` handler leaves exactly one armed reconnect timer. -/
theorem onclose_retry (s : ClientState) (code : Nat) (hInv : TimerInv s)
    (hnotOpen : (match s.socket with
                 | some sk => sk.ready != Ready.opened
                 | none => true) = true)
    (h1 : code ≠ 1000) (h2 : code ≠ 1005) (h3 : code ≠ 4001) :
    ∃ hd, (oncloseHandler s code).reconnectTimerHandle = some hd ∧
      (oncloseHandler s code).timers = [(hd, RECONNECT_INTERVAL)] := by
  unfold TimerInv at hInv
  unfold oncloseHandler
  rw [hnotOpen]
  have harm : (code != 1000 && code != 1005 && code != 4001 && true) = true := by
    simp [h1, h2, h3]
  simp only [harm, if_true, eq_self_iff_true]
  unfold setupReconnection
  cases hh : s.reconnectTimerHandle with
  | none =>
    simp only [hh] at hInv
    exact ⟨s.nextTimerId, by simp [hInv, hh]⟩
  | some hd =>
    simp only [hh] at hInv
    exact ⟨hd, by simp [hInv, hh]⟩

/-! ## Claims -/

/-- C5: endpoint construction rewrites the scheme of the user-supplied
address: `http:` becomes `ws:` with the rest unchanged, `https:` becomes
`wss:`, `ws:`/`wss:` addresses pass through unchanged, and every address
with any other scheme makes construction fail by throwing. -/
theorem c5_getHost_scheme_rewrite :
    (∀ rest : Str,
      getHost ('h' :: 't' :: 't' :: 'p' :: ':' :: rest) =
        .ok ('w' :: 's' :: ':' :: rest)) ∧
    (∀ rest : Str,
      getHost ('h' :: 't' :: 't' :: 'p' :: 's' :: ':' :: rest) =
        .ok ('w' :: 's' :: 's' :: ':' :: rest)) ∧
    (∀ rest : Str,
      getHost ('w' :: 's' :: ':' :: rest) = .ok ('w' :: 's' :: ':' :: rest)) ∧
    (∀ rest : Str,
      getHost ('w' :: 's' :: 's' :: ':' :: rest) =
        .ok ('w' :: 's' :: 's' :: ':' :: rest)) ∧
    (∀ a : Str,
      "http:".toList.isPrefixOf a = false →
      "https:".toList.isPrefixOf a = false →
      "ws:".toList.isPrefixOf a = false →
      "wss:".toList.isPrefixOf a = false →
      getHost a = .error (invalidEndpointMsg a)) := by
  refine ⟨?_, ?_, ?_, ?_, ?_⟩
  · intro rest; simp [getHost, List.isPrefixOf]
  · intro rest; simp [getHost, List.isPrefixOf]
  · intro rest; simp [getHost, List.isPrefixOf]
  · intro rest; simp [getHost, List.isPrefixOf]
  · intro a h1 h2 h3 h4
    simp at h1 h2 h3 h4
    simp [getHost, h1, h2, h3, h4]

/-- Witness for C5 at concrete endpoints, using the invalid-scheme clause
at `ftp://x`. -/
theorem c5_witness :
    getHost "ftp://x".toList = .error (invalidEndpointMsg "ftp://x".toList) :=
  c5_getHost_scheme_rewrite.2.2.2.2 "ftp://x".toList (by decide) (by decide)
    (by decide) (by decide)

/-- A client with one registered tracker (`"t"`), after `connect("/app")`
followed by `connect("/other")` before the first socket opened: the first
socket (sid 0) has been superseded by sid 1. -/
def c1Tracked : ClientState :=
  let base :=
    match createTracker (initState "ws://h".toList) "t".toList "st".toList
        "pm".toList with
    | .ok s => s
    | .error _ => initState "ws://h".toList
  (connect (connect base "app".toList).1 "other".toList).1

/-- C1: refuted on the code — the superseded socket's close callback is NOT
ignored. In the state after `connect("/app"); connect("/other")` (current
socket sid 1, still CONNECTING; sid 0 superseded and `close()`d), the stale
socket's close event with code 1006 emits a `disconnect` lifecycle event,
notifies the registered tracker `onDisconnect`, and arms a reconnect timer:
an observable state change and a spurious disconnect driven by a socket
whose epoch is not current. The code has no epoch guard; its lines 38-46
document this race as a known bug, which the spec's epoch design fixes. -/
theorem c1_stale_close_not_ignored :
    c1Tracked.closeCalls = [0] ∧
    c1Tracked.socket.map Sock.sid = some 1 ∧
    c1Tracked.events = [] ∧
    c1Tracked.reconnectTimerHandle = none ∧
    c1Tracked.trackers.map Tracker.log = [[]] ∧
    (deliverClose c1Tracked 0 1006).events = [LEvent.disconnect 1006] ∧
    (deliverClose c1Tracked 0 1006).trackers.map Tracker.log =
      [[TNote.disconnect]] ∧
    (deliverClose c1Tracked 0 1006).reconnectTimerHandle = some 0 ∧
    (deliverClose c1Tracked 0 1006).timers = [(0, RECONNECT_INTERVAL)] ∧
    (deliverClose c1Tracked 0 1006).socket.map Sock.sid = some 1 :=
  ⟨rfl, rfl, rfl, rfl, rfl, rfl, rfl, rfl, rfl, rfl⟩

/-- C2: for a close callback on the current socket, codes 1000/1005/4001
arm nothing (timer state untouched), while any other code leaves exactly
one armed reconnect timer with the fixed interval `RECONNECT_INTERVAL`
(2500 ms), which firing consumes, and which `clearRetry` clears. -/
theorem c2_close_code_policy (s : ClientState) (sk : Sock) (code : Nat)
    (hInv : TimerInv s) (hsk : s.socket = some sk) :
    RECONNECT_INTERVAL = 2500 ∧
    ((code = 1000 ∨ code = 1005 ∨ code = 4001) →
      (deliverClose s sk.sid code).reconnectTimerHandle = s.reconnectTimerHandle ∧
      (deliverClose s sk.sid code).timers = s.timers) ∧
    (code ≠ 1000 → code ≠ 1005 → code ≠ 4001 →
      ∃ hd, (deliverClose s sk.sid code).reconnectTimerHandle = some hd ∧
        (deliverClose s sk.sid code).timers = [(hd, RECONNECT_INTERVAL)] ∧
        (timerFire (deliverClose s sk.sid code)).timers = [] ∧
        (timerFire (deliverClose s sk.sid code)).reconnectTimerHandle = none ∧
        (clearRetry (deliverClose s sk.sid code)).timers = [] ∧
        (clearRetry (deliverClose s sk.sid code)).reconnectTimerHandle = none) := by
  have hred : deliverClose s sk.sid code =
      oncloseHandler { s with socket := some ({ sk with ready := .closed } : Sock) } code := by
    unfold deliverClose
    rw [hsk]
    simp
  have hInv1 : TimerInv { s with socket := some ({ sk with ready := .closed } : Sock) } :=
    timerInv_of_eq hInv (by simp) (by simp)
  refine ⟨rfl, ?_, ?_⟩
  · intro hterm
    rw [hred]
    exact onclose_terminal _ code hterm
  · intro h1 h2 h3
    obtain ⟨hd, hh, ht⟩ := onclose_retry _ code hInv1 (by dsimp only; decide) h1 h2 h3
    have hInv2 : TimerInv (deliverClose s sk.sid code) :=
      timerInv_deliverClose s sk.sid code hInv
    have hf := timerFire_spec _ hInv2
    have hc := clearRetry_spec _ hInv2
    exact ⟨hd, by rw [hred]; exact hh, by rw [hred]; exact ht,
      hf.1, hf.2, hc.1, hc.2⟩

/-- Client that connected to `"app"` (socket sid 0, still CONNECTING). -/
def c2State : ClientState := (connect (initState "ws://h".toList) "app".toList).1

/-- Witness for C2 at a concrete state: terminal code 1000 arms nothing;
code 1006 arms exactly one 2500 ms timer. -/
theorem c2_witness :
    ((deliverClose c2State 0 1000).reconnectTimerHandle = none ∧
      (deliverClose c2State 0 1000).timers = []) ∧
    (∃ hd, (deliverClose c2State 0 1006).reconnectTimerHandle = some hd ∧
      (deliverClose c2State 0 1006).timers = [(hd, RECONNECT_INTERVAL)]) := by
  have hInv : TimerInv c2State := by
    unfold TimerInv
    rfl
  have hsk : c2State.socket =
      some { sid := 0, surl := "ws://h".toList ++ ['/'] ++ "app".toList,
             ready := Ready.connecting } := rfl
  constructor
  · have h2 := (c2_close_code_policy c2State _ 1000 hInv hsk).2.1 (Or.inl rfl)
    exact ⟨h2.1.trans rfl, h2.2.trans rfl⟩
  · obtain ⟨hd, h⟩ := (c2_close_code_policy c2State _ 1006 hInv hsk).2.2
      (by decide) (by decide) (by decide)
    exact ⟨hd, h.1, h.2.1⟩

/-- Client that connected to `"app"`, whose socket (sid 0) then closed with
code 1006: the reconnect timer (handle 0) is pending. -/
def c3State : ClientState :=
  deliverClose (connect (initState "ws://h".toList) "app".toList).1 0 1006

/-- C3, counterexample to "cleared on explicit reconnect()": in `c3State` a
reconnect timer is pending; an explicit `reconnect()` call succeeds yet
leaves the timer pending. -/
theorem c3_counterexample :
    c3State.reconnectTimerHandle = some 0 ∧
    c3State.timers = [(0, RECONNECT_INTERVAL)] ∧
    (reconnect c3State).2 = true ∧
    (reconnect c3State).1.reconnectTimerHandle = some 0 ∧
    (reconnect c3State).1.timers = [(0, RECONNECT_INTERVAL)] :=
  ⟨rfl, rfl, rfl, rfl, rfl⟩

/-- C3 as amended: in every reachable state at most one pending reconnect
timer exists; a schedule request while one is pending is a no-op; the
pending timer is cleared on successful socket open and on explicit
`close()` — but not by explicit `reconnect()` (see the counterexample). -/
theorem c3_amended_timer_discipline :
    (∀ (host : Str) (s : ClientState), Reachable host s →
      s.timers.length ≤ 1) ∧
    (∀ (s : ClientState) (interval hd : Nat),
      s.reconnectTimerHandle = some hd → setupReconnection s interval = s) ∧
    (∀ (host : Str) (s : ClientState) (sockId : Nat), Reachable host s →
      (deliverOpen s sockId).reconnectTimerHandle = none ∧
      (deliverOpen s sockId).timers = []) ∧
    (∀ (host : Str) (s : ClientState), Reachable host s →
      (close s).reconnectTimerHandle = none ∧ (close s).timers = []) := by
  refine ⟨?_, ?_, ?_, ?_⟩
  · intro host s hr
    exact timerInv_length (timerInv_reachable hr)
  · intro s interval hd hh
    unfold setupReconnection
    rw [hh]
  · intro host s sockId hr
    have hs := deliverOpen_spec s sockId (timerInv_reachable hr)
    exact ⟨hs.2, hs.1⟩
  · intro host s hr
    have hs := close_spec s (timerInv_reachable hr)
    exact ⟨hs.2, hs.1⟩

/-- Witness for C3's amended theorem at the initial state and a concrete
pending-timer state. -/
theorem c3_amended_witness :
    (initState "ws://h".toList).timers.length ≤ 1 ∧
    setupReconnection c3State RECONNECT_INTERVAL = c3State ∧
    (close c3State).reconnectTimerHandle = none :=
  ⟨c3_amended_timer_discipline.1 "ws://h".toList _ Reachable.init,
   c3_amended_timer_discipline.2.1 c3State RECONNECT_INTERVAL 0 rfl,
   (c3_amended_timer_discipline.2.2.2 "ws://h".toList c3State
      (Reachable.step (Reachable.step Reachable.init
        (Step.connect (initState "ws://h".toList) "app".toList))
        (Step.sockClose (connect (initState "ws://h".toList) "app".toList).1
          0 1006))).1⟩

/-- C4: `connect(path)` while already OPEN on the identical resolved target
returns `true` and is a no-op: the existing socket is kept (not closed) and
no new socket generation is minted. -/
theorem c4_connect_idempotent (s : ClientState) (path : Str) (sk : Sock)
    (hsk : s.socket = some sk) (hopen : sk.ready = .opened)
    (hurl : sk.surl = s.host ++ ['/'] ++ path) :
    (connect s path).2 = true ∧
    (connect s path).1.socket = s.socket ∧
    (connect s path).1.closeCalls = s.closeCalls ∧
    (connect s path).1.nextGen = s.nextGen := by
  simp [connect, isConnected, hsk, hopen, hurl]

/-- Client OPEN on `"app"` (socket sid 0 opened). -/
def c4State : ClientState :=
  deliverOpen (connect (initState "ws://h".toList) "app".toList).1 0

/-- Witness for C4: repeating `connect("app")` on `c4State`. -/
theorem c4_witness :
    (connect c4State "app".toList).2 = true ∧
    (connect c4State "app".toList).1.socket = c4State.socket ∧
    (connect c4State "app".toList).1.closeCalls = c4State.closeCalls ∧
    (connect c4State "app".toList).1.nextGen = c4State.nextGen :=
  c4_connect_idempotent c4State "app".toList
    { sid := 0, surl := "ws://h".toList ++ ['/'] ++ "app".toList,
      ready := Ready.opened } rfl rfl rfl

/-- Updating the first group-match preserves what `find?` returns, mapped
through the update, as long as the update keeps the group. -/
theorem find_updateFirst (ts : List Tracker) (g : Str) (f : Tracker → Tracker)
    (t0 : Tracker) (h : ts.find? (fun t => t.group == g) = some t0)
    (hf : (f t0).group = t0.group) :
    (updateFirst ts g f).find? (fun t => t.group == g) = some (f t0) := by
  induction ts with
  | nil => simp at h
  | cons a as ih =>
    by_cases ha : (a.group == g) = true
    · rw [List.find?_cons_of_pos (p := fun (t : Tracker) => t.group == g) _ ha] at h
      cases h
      unfold updateFirst
      rw [if_pos ha]
      have hfa : ((f t0).group == g) = true := by
        rw [hf]
        exact ha
      rw [List.find?_cons_of_pos (p := fun (t : Tracker) => t.group == g) _ hfa]
    · rw [List.find?_cons_of_neg (p := fun (t : Tracker) => t.group == g) _ ha] at h
      unfold updateFirst
      rw [if_neg ha]
      rw [List.find?_cons_of_neg (p := fun (t : Tracker) => t.group == g) _ ha]
      exact ih h

/-- A registered tracker whose group matches makes `findTracker` succeed. -/
theorem findTracker_of_mem {s : ClientState} {t : Tracker} {tid : Str}
    (ht : t ∈ s.trackers) (hg : t.group = tid) :
    ∃ t0, findTracker s tid = some t0 := by
  unfold findTracker
  have hs : (s.trackers.find? (fun u => u.group == tid)).isSome = true := by
    rw [List.find?_isSome]
    exact ⟨t, ht, by simp [hg]⟩
  exact Option.isSome_iff_exists.mp hs

/-- C6: `createTracker` on an identifier that already has a live
registration fails with the duplicate-tracker error, and the pre-existing
tracker remains registered: routing a `TrackerEmit` for that identifier
still finds it and appends the event to its log. -/
theorem c6_duplicate_tracker (s : ClientState) (tid store params : Str)
    (t : Tracker) (ht : t ∈ s.trackers) (hid : t.trackerId = tid)
    (hg : t.group = tid) :
    createTracker s tid store params = .error (duplicateTrackerMsg tid) ∧
    (∀ ev d now, ∃ t0,
      findTracker s tid = some t0 ∧
      findTracker (handleEvent s (.tEmit tid ev d) now) tid =
        some ({ t0 with log := t0.log ++ [TNote.temit ev d] } : Tracker)) := by
  constructor
  · unfold createTracker
    have hany : s.trackers.any (fun u => u.trackerId == tid) = true := by
      rw [List.any_eq_true]
      exact ⟨t, ht, by simp [hid]⟩
    rw [if_pos hany]
  · intro ev d now
    obtain ⟨t0, h0⟩ := findTracker_of_mem ht hg
    refine ⟨t0, h0, ?_⟩
    have heq : handleEvent s (.tEmit tid ev d) now =
        { s with trackers :=
            (updateFirst s.trackers tid
              (fun u => ({ u with log := u.log ++ [TNote.temit ev d] } : Tracker))) } := by
      simp [handleEvent, notifyTracker, h0]
    rw [heq]
    unfold findTracker
    exact find_updateFirst s.trackers tid _ t0 h0 (by simp)

/-- A client with one registered tracker `"t"`. -/
def c6State : ClientState :=
  match createTracker (initState "ws://h".toList) "t".toList "st".toList
      "pm".toList with
  | .ok s => s
  | .error _ => initState "ws://h".toList

/-- Witness for C6: a second `createTracker("t")` on `c6State` fails and
the registered tracker still receives a routed emit. -/
theorem c6_witness :
    createTracker c6State "t".toList "s2".toList "p2".toList =
      .error (duplicateTrackerMsg "t".toList) ∧
    (∃ t0, findTracker c6State "t".toList = some t0 ∧
      findTracker
          (handleEvent c6State (.tEmit "t".toList "e".toList "d".toList) 5)
          "t".toList =
        some ({ t0 with
          log := t0.log ++ [TNote.temit "e".toList "d".toList] } : Tracker)) := by
  have h := c6_duplicate_tracker c6State "t".toList "s2".toList "p2".toList
    { trackerId := "t".toList, group := "t".toList, store := "st".toList,
      params := "pm".toList, log := [] }
    (List.mem_singleton.mpr rfl) rfl rfl
  exact ⟨h.1, h.2 "e".toList "d".toList 5⟩

/-- C7: a decoded `TrackerTimestampRequest` is special-cased — the handler
is exactly one `client.send` of the timestamp-response frame carrying the
wall-clock reading, no tracker is consulted or changed, and the frame is
written iff the socket is open (send's drop contract). -/
theorem c7_timestamp_special_case (s : ClientState) (tid : Str) (now : Nat) :
    handleEvent s (.tTimestamp tid) now = clientSend s (Frame.timestamp tid now) ∧
    (handleEvent s (.tTimestamp tid) now).trackers = s.trackers ∧
    (isConnected s = true →
      (handleEvent s (.tTimestamp tid) now).sent =
        s.sent ++ [Frame.timestamp tid now]) ∧
    (isConnected s = false →
      (handleEvent s (.tTimestamp tid) now).sent = s.sent) := by
  refine ⟨rfl, ?_, ?_, ?_⟩
  · simp only [handleEvent, clientSend]
    split <;> simp
  · intro h
    simp [handleEvent, clientSend, h]
  · intro h
    simp [handleEvent, clientSend, h]

/-- Client OPEN on `"app"`, used as the connected state for C7's witness. -/
def c7State : ClientState :=
  deliverOpen (connect (initState "ws://h".toList) "app".toList).1 0

/-- Witness for C7 on the connected `c7State`: exactly one timestamp
frame is written. -/
theorem c7_witness :
    (handleEvent c7State (.tTimestamp "t".toList) 123).sent =
      c7State.sent ++ [Frame.timestamp "t".toList 123] :=
  (c7_timestamp_special_case c7State "t".toList 123).2.2.1 rfl

/-- Client that connected to `"app"`, whose socket (sid 0) closed with code
1006: a reconnect timer (handle 0) is pending. -/
def c8State : ClientState :=
  deliverClose (connect (initState "ws://h".toList) "app".toList).1 0 1006

/-- C8, counterexample to "after clearPath() no retry is armed": in
`c8State` a reconnect timer is pending, and `clearPath()` leaves it armed. -/
theorem c8_counterexample :
    c8State.reconnectTimerHandle = some 0 ∧
    c8State.timers = [(0, RECONNECT_INTERVAL)] ∧
    (clearPath c8State).reconnectTimerHandle = some 0 ∧
    (clearPath c8State).timers = [(0, RECONNECT_INTERVAL)] :=
  ⟨rfl, rfl, rfl, rfl⟩

/-- C8 as amended: `clearPath()` clears the path, closes the socket and
returns the manager to Idle (no url, no socket); it does not clear a
pending retry timer, but no reconnection attempt is subsequently made —
an explicit `reconnect()` fails and changes nothing, and the pending timer
firing creates no socket (no generation is minted) because the path is
null. -/
theorem c8_clearPath_idle (s : ClientState) (sk : Sock)
    (hsk : s.socket = some sk) :
    (clearPath s).url = none ∧
    (clearPath s).socket = none ∧
    (clearPath s).closeCalls = s.closeCalls ++ [sk.sid] ∧
    (clearPath s).reconnectTimerHandle = s.reconnectTimerHandle ∧
    (reconnect (clearPath s)).2 = false ∧
    (reconnect (clearPath s)).1 = clearPath s ∧
    (timerFire (clearPath s)).url = none ∧
    (timerFire (clearPath s)).socket = none ∧
    (timerFire (clearPath s)).nextGen = (clearPath s).nextGen := by
  have hcp : clearPath s =
      { s with url := none, socket := none,
               closeCalls := s.closeCalls ++ [sk.sid] } := by
    simp [clearPath, closeCurrent, hsk]
  rw [hcp]
  refine ⟨rfl, rfl, rfl, rfl, rfl, rfl, ?_, ?_, ?_⟩ <;>
    (unfold timerFire
     cases hh : s.reconnectTimerHandle <;> simp [hh, reconnect])

/-- Witness for C8's amended theorem on the pending-timer state. -/
theorem c8_amended_witness :
    (clearPath c8State).url = none ∧
    (reconnect (clearPath c8State)).2 = false ∧
    (timerFire (clearPath c8State)).nextGen = (clearPath c8State).nextGen :=
  have h := c8_clearPath_idle c8State
    { sid := 0, surl := "ws://h".toList ++ ['/'] ++ "app".toList,
      ready := Ready.closed } rfl
  ⟨h.1, h.2.2.2.2.1, h.2.2.2.2.2.2.2.2⟩

/-- C9: a `TrackerEmit` for an identifier with no registered tracker is
dropped silently — the client state (in particular every tracker's log) is
left entirely unchanged. -/
theorem c9_unregistered_emit_dropped (s : ClientState) (tid ev d : Str)
    (now : Nat) (h : findTracker s tid = none) :
    handleEvent s (.tEmit tid ev d) now = s := by
  simp [handleEvent, notifyTracker, h]

/-- Witness for C9 on a fresh client with no trackers. -/
theorem c9_witness :
    handleEvent (initState "ws://h".toList)
      (.tEmit "g".toList "e".toList "d".toList) 7 =
      initState "ws://h".toList :=
  c9_unregistered_emit_dropped (initState "ws://h".toList) "g".toList
    "e".toList "d".toList 7 rfl

end Shocked

namespace ChatDemo

open Shocked (Str)

/-- A session of user alice with the initial `ROOMS` table. -/
def c10State : ChatState :=
  { rooms := initialRooms,
    session := { user := { uid := 1, uname := "alice".toList }, room := none,
                 subscriptions := [], closeListeners := 0 },
    channelDispatches := [], sessionDispatches := [] }

/-- C10, counterexample: `"toString"` is not a room of the `ROOMS` table,
yet `join` does not throw `Unknown room` — the inherited
`Object.prototype.toString` is truthy, so the validation passes and join
dispatches `ADD_MEMBER` to the `"toString"` channel and subscribes the
session before failing with a TypeError at `ROOMS[room].push(user)`:
observable state changes under a failing call, refuting error atomicity. -/
theorem c10_counterexample :
    c10State.rooms.find? (fun r => r.1 == "toString".toList) = none ∧
    (join c10State "toString".toList).2 = .error JsError.typeError ∧
    (join c10State "toString".toList).1.channelDispatches =
      [("toString".toList,
        ChatAction.addMember { uid := 1, uname := "alice".toList })] ∧
    (join c10State "toString".toList).1.session.subscriptions =
      ["toString".toList] ∧
    (join c10State "toString".toList).1 ≠ c10State :=
  ⟨rfl, rfl, rfl, rfl, by decide⟩

/-- C10 as amended: for a room name that is neither an own key of the
`ROOMS` table nor an inherited `Object.prototype` property name, `join`
throws `Unknown room` and performs no state change — the state at the
throw point is exactly the input state (error atomicity). For an inherited
prototype name, the truthiness validation passes and join dispatches
`ADD_MEMBER` and subscribes before throwing a TypeError, so atomicity does
not hold there. -/
theorem c10_join_validation (st : ChatState) (room : Str)
    (hown : st.rooms.find? (fun r => r.1 == room) = none) :
    (objectProtoKeys.contains room = false →
      join st room =
        (st, .error (.unknownRoom ("Unknown room ".toList ++ room)))) ∧
    (objectProtoKeys.contains room = true →
      join st room =
        ({ st with
            channelDispatches := st.channelDispatches ++
              [(room, .addMember st.session.user)],
            session := { st.session with
              subscriptions := st.session.subscriptions ++ [room] } },
          .error .typeError)) := by
  constructor <;> intro h <;> simp at h <;>
    simp [join, getMembers, roomsLookup, hown, h]

/-- Witness for C10's amended theorem: `"rust"` (absent everywhere) throws
`Unknown room` atomically; `"toString"` (inherited) throws a TypeError. -/
theorem c10_validation_witness :
    join c10State "rust".toList =
      (c10State,
        .error (.unknownRoom ("Unknown room ".toList ++ "rust".toList))) ∧
    (join c10State "toString".toList).2 = .error JsError.typeError := by
  constructor
  · exact (c10_join_validation c10State "rust".toList rfl).1 rfl
  · rw [(c10_join_validation c10State "toString".toList rfl).2 rfl]

end ChatDemo
